import Mathlib

/-!
Shallow embedding of the JET (Journal Entry Testing) engine of
`jet_automation.py`.

Tables are lists of records.  Monetary amounts are rationals: the engine
receives currency-quantized decimals (`load_data_file` coerces the four
amount columns with `pd.to_numeric(...).fillna(0)` before any procedure
runs).  Cells of optional columns that can be missing in individual rows
(`전표번호`, `입력사원`, `승인자`) are `Option`-valued, mirroring pandas
`NaN`; whether an optional column exists at all is a presence flag on the
journal, mirroring the `'컬럼' in journal_df.columns` checks of the source.
Dates are modelled as integers (day ordinals), which is all the engine's
date comparisons use.
-/

namespace JET

/-- A journal row (분개장 row) after ingestion. -/
structure JournalRow where
  posting_date : Int
  voucher_id : Option String
  account_code : String
  account_name : String
  debit_amount : Rat
  credit_amount : Rat
  entry_date : Int
  preparer : Option String
  approver : Option String
deriving DecidableEq, Repr

/-- The uploaded journal: its rows together with which of the optional
columns are present (`'전표번호' in journal_df.columns` etc.). -/
structure Journal where
  hasVoucherId : Bool
  hasPreparer : Bool
  hasApprover : Bool
  hasEntryDate : Bool
  rows : List JournalRow
deriving DecidableEq, Repr

/-- A trial-balance row (시산표 row) after ingestion. -/
structure TBRow where
  account_code : String
  account_name : String
  debit_balance : Rat
  credit_balance : Rat
deriving DecidableEq, Repr

/-- Tagged outcome of one procedure: `ok` means the procedure ran (an empty
list is "ran, no exceptions"), `cannotEval` carries the source's message
for an unmet precondition.  The source encodes this as differently shaped
return values (message list / `(DataFrame, error_msg)` pairs) that the UI
dispatches on. -/
inductive ProcResult (α : Type) where
  | ok : α → ProcResult α
  | cannotEval : String → ProcResult α
deriving DecidableEq, Repr

/-! ### A02 — 전표 차대평형 검증 (`scenario_a02_dr_cr_test`) -/

/-- Keys of `journal_df.groupby('전표번호')`: the distinct non-missing
voucher ids (pandas groupby drops `NaN` keys). -/
def voucherIds (rows : List JournalRow) : List String :=
  (rows.filterMap (·.voucher_id)).dedup

/-- The rows of one voucher. -/
def rowsOfVoucher (rows : List JournalRow) (v : String) : List JournalRow :=
  rows.filter (fun r => r.voucher_id == some v)

/-- Per-voucher debit total (`'차변금액': 'sum'`). -/
def voucherDebit (rows : List JournalRow) (v : String) : Rat :=
  ((rowsOfVoucher rows v).map (·.debit_amount)).sum

/-- Per-voucher credit total (`'대변금액': 'sum'`). -/
def voucherCredit (rows : List JournalRow) (v : String) : Rat :=
  ((rowsOfVoucher rows v).map (·.credit_amount)).sum

/-- A row of `voucher_summary` (before the `차이금액` column is added). -/
structure VSRow where
  voucher : String
  debit_total : Rat
  credit_total : Rat
deriving DecidableEq, Repr

/-- An `unbalanced` row after the `차이금액` column is added. -/
structure A02Row where
  voucher : String
  debit_total : Rat
  credit_total : Rat
  diff : Rat
deriving DecidableEq, Repr

/-- `voucher_summary = journal_df.groupby('전표번호').agg(...)`. -/
def a02Summary (rows : List JournalRow) : List VSRow :=
  (voucherIds rows).map (fun v => ⟨v, voucherDebit rows v, voucherCredit rows v⟩)

/-- `unbalanced = voucher_summary[차변금액 != 대변금액]`. -/
def a02Filter (s : List VSRow) : List VSRow :=
  s.filter (fun g => g.debit_total != g.credit_total)

/-- `unbalanced['차이금액'] = 차변금액 - 대변금액`. -/
def a02AddDiff (s : List VSRow) : List A02Row :=
  s.map (fun g => ⟨g.voucher, g.debit_total, g.credit_total, g.debit_total - g.credit_total⟩)

/-- The exception rows A02 returns when it runs. -/
def a02Unbalanced (rows : List JournalRow) : List A02Row :=
  a02AddDiff (a02Filter (a02Summary rows))

/-- A02: per-voucher debit/credit balance test. -/
def scenario_a02_dr_cr_test (j : Journal) : ProcResult (List A02Row) :=
  if j.hasVoucherId then .ok (a02Unbalanced j.rows)
  else .cannotEval "전표번호 컬럼이 없어 검증할 수 없습니다."

theorem mem_voucherIds {rows : List JournalRow} {v : String} :
    v ∈ voucherIds rows ↔ ∃ r ∈ rows, r.voucher_id = some v := by
  simp [voucherIds, List.mem_dedup, List.mem_filterMap]

theorem voucherDebit_of_absent {rows : List JournalRow} {v : String}
    (h : ∀ r ∈ rows, r.voucher_id ≠ some v) : voucherDebit rows v = 0 := by
  have : rowsOfVoucher rows v = [] := by
    simp only [rowsOfVoucher, List.filter_eq_nil_iff]
    intro r hr
    simpa using h r hr
  simp [voucherDebit, this]

theorem voucherCredit_of_absent {rows : List JournalRow} {v : String}
    (h : ∀ r ∈ rows, r.voucher_id ≠ some v) : voucherCredit rows v = 0 := by
  have : rowsOfVoucher rows v = [] := by
    simp only [rowsOfVoucher, List.filter_eq_nil_iff]
    intro r hr
    simpa using h r hr
  simp [voucherCredit, this]

theorem mem_a02Unbalanced {rows : List JournalRow} {e : A02Row} :
    e ∈ a02Unbalanced rows ↔
      e.voucher ∈ voucherIds rows ∧ voucherDebit rows e.voucher ≠ voucherCredit rows e.voucher ∧
      e = ⟨e.voucher, voucherDebit rows e.voucher, voucherCredit rows e.voucher,
            voucherDebit rows e.voucher - voucherCredit rows e.voucher⟩ := by
  constructor
  · intro h
    simp only [a02Unbalanced, a02AddDiff, a02Filter, a02Summary, List.mem_map,
      List.mem_filter, bne_iff_ne, ne_eq] at h
    obtain ⟨g, ⟨⟨v, hv, hg⟩, hne⟩, he⟩ := h
    subst hg
    subst he
    simp_all
  · rintro ⟨hv, hne, he⟩
    rw [he]
    simp only [a02Unbalanced, a02AddDiff, a02Filter, a02Summary, List.mem_map,
      List.mem_filter, bne_iff_ne, ne_eq]
    exact ⟨⟨e.voucher, voucherDebit rows e.voucher, voucherCredit rows e.voucher⟩,
      ⟨⟨e.voucher, hv, rfl⟩, hne⟩, rfl⟩

/-- C1: for every journal carrying a voucher-id column, the Balance Test
(A02) runs and its exception set contains a voucher `v` iff the voucher's
debit total differs from its credit total (exact equality, no tolerance);
each exception carries the signed difference debit − credit; and the set
is empty iff every voucher balances exactly. -/
theorem C1_a02_balance_test (j : Journal) (h : j.hasVoucherId = true) :
    scenario_a02_dr_cr_test j = .ok (a02Unbalanced j.rows) ∧
    (∀ v : String,
      (∃ e ∈ a02Unbalanced j.rows, e.voucher = v) ↔
        voucherDebit j.rows v ≠ voucherCredit j.rows v) ∧
    (∀ e ∈ a02Unbalanced j.rows,
      e.diff = voucherDebit j.rows e.voucher - voucherCredit j.rows e.voucher) ∧
    (a02Unbalanced j.rows = [] ↔ ∀ v : String, voucherDebit j.rows v = voucherCredit j.rows v) := by
  have key : ∀ v : String,
      (∃ e ∈ a02Unbalanced j.rows, e.voucher = v) ↔
        voucherDebit j.rows v ≠ voucherCredit j.rows v := by
    intro v
    constructor
    · rintro ⟨e, he, hev⟩
      obtain ⟨-, hne, -⟩ := mem_a02Unbalanced.mp he
      rwa [hev] at hne
    · intro hne
      refine ⟨⟨v, voucherDebit j.rows v, voucherCredit j.rows v,
        voucherDebit j.rows v - voucherCredit j.rows v⟩, ?_, rfl⟩
      refine mem_a02Unbalanced.mpr ⟨?_, hne, rfl⟩
      by_contra hv
      rw [mem_voucherIds] at hv
      push_neg at hv
      exact hne (by rw [voucherDebit_of_absent hv, voucherCredit_of_absent hv])
  refine ⟨by simp [scenario_a02_dr_cr_test, h], key, ?_, ?_⟩
  · intro e he
    obtain ⟨-, -, hform⟩ := mem_a02Unbalanced.mp he
    calc e.diff = (⟨e.voucher, voucherDebit j.rows e.voucher, voucherCredit j.rows e.voucher,
        voucherDebit j.rows e.voucher - voucherCredit j.rows e.voucher⟩ : A02Row).diff := by rw [← hform]
    _ = voucherDebit j.rows e.voucher - voucherCredit j.rows e.voucher := rfl
  · constructor
    · intro hempty v
      by_contra hne
      obtain ⟨e, he, -⟩ := (key v).mpr hne
      rw [hempty] at he
      simp at he
    · intro hall
      by_contra hne
      obtain ⟨e, he⟩ := List.exists_mem_of_ne_nil _ hne
      obtain ⟨-, hned, -⟩ := mem_a02Unbalanced.mp he
      exact hned (hall e.voucher)

/-- Sample journal for the Balance Test: voucher `V1` has lines
(debit 500, credit 0) and (debit 0, credit 300). -/
def jV1 : Journal :=
  { hasVoucherId := true, hasPreparer := false, hasApprover := false, hasEntryDate := false,
    rows := [
      { posting_date := 0, voucher_id := some "V1", account_code := "101",
        account_name := "현금", debit_amount := 500, credit_amount := 0,
        entry_date := 0, preparer := none, approver := none },
      { posting_date := 0, voucher_id := some "V1", account_code := "401",
        account_name := "매출", debit_amount := 0, credit_amount := 300,
        entry_date := 0, preparer := none, approver := none }] }

theorem C1_a02_balance_test_witness :
    ∃ e ∈ a02Unbalanced jV1.rows, e.voucher = "V1" :=
  ((C1_a02_balance_test jV1 rfl).2.1 "V1").mpr
    (by norm_num [jV1, voucherDebit, voucherCredit, rowsOfVoucher, List.filter])

/-! ### A03 — 시산표 Roll-forward 검증 (`scenario_a03_rollforward_test`) -/

/-- Model of `.str.strip()` (strip surrounding whitespace), written with
structural recursion so that it evaluates. -/
def strTrim (s : String) : String :=
  ⟨((s.data.dropWhile Char.isWhitespace).reverse.dropWhile Char.isWhitespace).reverse⟩

theorem strTrim_101 : strTrim "101" = "101" := by decide

/-- A row of `journal_summary` (journal grouped by 계정코드 with summed
amounts). -/
structure SRow where
  code : String
  period_debit : Rat
  period_credit : Rat
deriving DecidableEq, Repr

/-- Keys of `journal_df.groupby('계정코드')`: the distinct account codes. -/
def accountCodes (rows : List JournalRow) : List String :=
  (rows.map (·.account_code)).dedup

/-- Per-account debit total over the journal. -/
def accountDebit (rows : List JournalRow) (c : String) : Rat :=
  ((rows.filter (fun r => r.account_code == c)).map (·.debit_amount)).sum

/-- Per-account credit total over the journal. -/
def accountCredit (rows : List JournalRow) (c : String) : Rat :=
  ((rows.filter (fun r => r.account_code == c)).map (·.credit_amount)).sum

/-- `journal_summary = journal_df.groupby('계정코드').agg(...)` (line 156;
the grouping happens on the raw codes). -/
def a03SummaryRaw (rows : List JournalRow) : List SRow :=
  (accountCodes rows).map (fun c => ⟨c, accountDebit rows c, accountCredit rows c⟩)

/-- Line 174: `journal_summary['계정코드'] = ...astype(str).str.strip()`. -/
def trimSummary (s : List SRow) : List SRow :=
  s.map (fun q => { q with code := strTrim q.code })

/-- Lines 162-171: `prev_tb.copy()` / `curr_tb.copy()` followed by the code
trim; the `pd.to_numeric(...).fillna(0)` coercions are the identity here
because the balances are already numeric after ingestion. -/
def cleanTB (tb : List TBRow) : List TBRow :=
  tb.map (fun p => { p with account_code := strTrim p.account_code })

/-- A `merged` row after the first outer join (lines 177-182): prior
balances and period journal totals for one account, with zeros for the
side the account is missing from. -/
structure MRow where
  code : String
  prior_debit : Rat
  prior_credit : Rat
  period_debit : Rat
  period_credit : Rat
deriving DecidableEq, Repr

/-- `merged = prev_tb_clean.merge(journal_summary, on='계정코드',
how='outer')` together with the subsequent `fillna(0)` loop: each prior
row joins the summary rows carrying its code (zeros when there are none),
and summary rows whose code no prior row carries are appended with zero
prior balances. -/
def rollMerge (prevC : List TBRow) (s : List SRow) : List MRow :=
  (prevC.flatMap (fun p =>
    let ms := s.filter (fun q => q.code == p.account_code)
    if ms.isEmpty then [⟨p.account_code, p.debit_balance, p.credit_balance, 0, 0⟩]
    else ms.map (fun q =>
      ⟨p.account_code, p.debit_balance, p.credit_balance, q.period_debit, q.period_credit⟩)))
  ++ (s.filter (fun q => !(prevC.any (fun p => p.account_code == q.code)))).map
      (fun q => ⟨q.code, 0, 0, q.period_debit, q.period_credit⟩)

/-- A `merged` row once the 계산된_차변잔액/계산된_대변잔액 columns exist. -/
structure CalcRow where
  code : String
  prior_debit : Rat
  prior_credit : Rat
  period_debit : Rat
  period_credit : Rat
  calc_debit : Rat
  calc_credit : Rat
deriving DecidableEq, Repr

/-- Lines 185-186: the pre-netting expected balances. -/
def rollStep3 (m : MRow) : CalcRow :=
  ⟨m.code, m.prior_debit, m.prior_credit, m.period_debit, m.period_credit,
   m.prior_debit + m.period_debit - m.period_credit,
   m.prior_credit + m.period_credit - m.period_debit⟩

/-- Lines 189-191: a negative computed debit balance moves its magnitude to
the credit side and is zeroed. -/
def netDr (x : CalcRow) : CalcRow :=
  if x.calc_debit < 0 then
    { x with calc_credit := x.calc_credit + |x.calc_debit|, calc_debit := 0 }
  else x

/-- Lines 193-195: a negative computed credit balance moves its magnitude to
the debit side and is zeroed.  The mask is computed from the values the
debit step just produced, so this step sees `netDr`'s output. -/
def netCr (x : CalcRow) : CalcRow :=
  if x.calc_credit < 0 then
    { x with calc_debit := x.calc_debit + |x.calc_credit|, calc_credit := 0 }
  else x

/-- The full netting adjustment as executed: debit step, then credit step. -/
def netRow (x : CalcRow) : CalcRow :=
  netCr (netDr x)

/-- The merged table with expected balances, before netting. -/
def rollCalc (prev : List TBRow) (rows : List JournalRow) : List CalcRow :=
  (rollMerge (cleanTB prev) (trimSummary (a03SummaryRaw rows))).map rollStep3

/-- The merged table after the netting step (the reconciler's intermediate
result). -/
def rollNetted (prev : List TBRow) (rows : List JournalRow) : List CalcRow :=
  (rollCalc prev rows).map netRow

/-- A `comparison` row after the second outer join; the 차이 columns are
added by `addDiffs`. -/
structure CompRow where
  code : String
  calc_debit : Rat
  calc_credit : Rat
  actual_debit : Rat
  actual_credit : Rat
  debit_diff : Rat
  credit_diff : Rat
deriving DecidableEq, Repr

/-- `comparison = merged.merge(curr_tb_clean, on='계정코드', how='outer')`
with the `fillna(0)` loop (lines 198-203). -/
def rollJoinCurr (m : List CalcRow) (currC : List TBRow) : List CompRow :=
  (m.flatMap (fun x =>
    let ms := currC.filter (fun c => c.account_code == x.code)
    if ms.isEmpty then [⟨x.code, x.calc_debit, x.calc_credit, 0, 0, 0, 0⟩]
    else ms.map (fun c =>
      ⟨x.code, x.calc_debit, x.calc_credit, c.debit_balance, c.credit_balance, 0, 0⟩)))
  ++ (currC.filter (fun c => !(m.any (fun x => x.code == c.account_code)))).map
      (fun c => ⟨c.account_code, 0, 0, c.debit_balance, c.credit_balance, 0, 0⟩)

/-- Lines 206-207: `차변_차이 = 계산된_차변잔액 - 차변잔액_actual` and the
credit analogue. -/
def addDiffs (r : CompRow) : CompRow :=
  { r with debit_diff := r.calc_debit - r.actual_debit,
           credit_diff := r.calc_credit - r.actual_credit }

/-- The full comparison table of one reconciler run. -/
def rollComparison (prev : List TBRow) (rows : List JournalRow) (curr : List TBRow) :
    List CompRow :=
  (rollJoinCurr (rollNetted prev rows) (cleanTB curr)).map addDiffs

/-- Line 210: keep only the rows whose absolute debit or credit difference
exceeds 0.01. -/
def rollDifferences (prev : List TBRow) (rows : List JournalRow) (curr : List TBRow) :
    List CompRow :=
  (rollComparison prev rows curr).filter
    (fun r => decide ((1 : Rat)/100 < |r.debit_diff|) || decide ((1 : Rat)/100 < |r.credit_diff|))

/-- A03: roll-forward reconciliation; any missing input table is a distinct
reported error (lines 151-152). -/
def scenario_a03_rollforward_test (prev : Option (List TBRow)) (j : Option Journal)
    (curr : Option (List TBRow)) : ProcResult (List CompRow) :=
  match prev, j, curr with
  | some p, some jn, some c => .ok (rollDifferences p jn.rows c)
  | _, _, _ => .cannotEval "필요한 데이터가 모두 업로드되지 않았습니다."

theorem mem_rollMerge_period {prevC : List TBRow} {s : List SRow} {m : MRow}
    (hm : m ∈ rollMerge prevC s) :
    (m.period_debit = 0 ∧ m.period_credit = 0) ∨
      (⟨m.code, m.period_debit, m.period_credit⟩ : SRow) ∈ s := by
  simp only [rollMerge, List.mem_append, List.mem_flatMap, List.mem_map, List.mem_filter] at hm
  rcases hm with ⟨p, -, hp⟩ | ⟨q, ⟨hq, -⟩, he⟩
  · by_cases hempty : (s.filter (fun q => q.code == p.account_code)).isEmpty
    · rw [if_pos hempty, List.mem_singleton] at hp
      subst hp
      exact Or.inl ⟨rfl, rfl⟩
    · rw [if_neg hempty, List.mem_map] at hp
      obtain ⟨q, hq, he⟩ := hp
      subst he
      right
      have := List.mem_filter.mp hq
      have hcode : q.code = p.account_code := by simpa using this.2
      simpa [← hcode] using this.1
  · subst he
    exact Or.inr hq

/-- C2: before netting, every row of the reconciler's merged table satisfies
`expected_debit = prior_debit + period_debit − period_credit` and
`expected_credit = prior_credit + period_credit − period_debit`, where the
outer join supplies zeros for a side the account is missing from: a row
joined from a prior-side-only account carries zero period totals, and a
row joined from a journal-side-only account carries zero prior balances. -/
theorem C2_a03_expected_balance_formula (prev : List TBRow) (rows : List JournalRow) :
    (∀ x ∈ rollCalc prev rows,
      x.calc_debit = x.prior_debit + x.period_debit - x.period_credit ∧
      x.calc_credit = x.prior_credit + x.period_credit - x.period_debit) ∧
    (∀ m ∈ rollMerge (cleanTB prev) (trimSummary (a03SummaryRaw rows)),
      ((∀ q ∈ trimSummary (a03SummaryRaw rows), q.code ≠ m.code) →
        m.period_debit = 0 ∧ m.period_credit = 0) ∧
      ((∀ p ∈ cleanTB prev, p.account_code ≠ m.code) →
        m.prior_debit = 0 ∧ m.prior_credit = 0)) := by
  constructor
  · intro x hx
    simp only [rollCalc, List.mem_map] at hx
    obtain ⟨m, -, he⟩ := hx
    subst he
    exact ⟨rfl, rfl⟩
  · intro m hm
    constructor
    · intro habsent
      rcases mem_rollMerge_period hm with h | h
      · exact h
      · exact absurd rfl (habsent _ h)
    · intro habsent
      simp only [rollMerge, List.mem_append, List.mem_flatMap, List.mem_map, List.mem_filter] at hm
      rcases hm with ⟨p, hp, hmem⟩ | ⟨q, -, he⟩
      · exfalso
        apply habsent p hp
        by_cases hempty : ((trimSummary (a03SummaryRaw rows)).filter
            (fun q => q.code == p.account_code)).isEmpty
        · rw [if_pos hempty, List.mem_singleton] at hmem
          subst hmem
          rfl
        · rw [if_neg hempty, List.mem_map] at hmem
          obtain ⟨q, -, he⟩ := hmem
          subst he
          rfl
      · subst he
        exact ⟨rfl, rfl⟩

/-- Prior trial balance of the roll-forward example: account 101 with a
debit balance of 1000. -/
def prevEx : List TBRow :=
  [{ account_code := "101", account_name := "현금", debit_balance := 1000, credit_balance := 0 }]

/-- Journal of the roll-forward example: account 101 with period debits 200
and credits 50. -/
def rowsEx : List JournalRow :=
  [{ posting_date := 0, voucher_id := some "V1", account_code := "101",
     account_name := "현금", debit_amount := 200, credit_amount := 50,
     entry_date := 0, preparer := none, approver := none }]

theorem rollCalc_ex :
    rollCalc prevEx rowsEx =
      [⟨"101", 1000, 0, 200, 50, 1150, -150⟩] := by
  norm_num [rollCalc, rollMerge, rollStep3, cleanTB, trimSummary, a03SummaryRaw,
    accountCodes, accountDebit, accountCredit, prevEx, rowsEx, strTrim_101, List.filter,
    List.dedup, List.flatMap]

theorem C2_a03_expected_balance_formula_witness :
    ∃ x ∈ rollCalc prevEx rowsEx, x.prior_debit = 1000 ∧ x.period_debit = 200 ∧
      x.period_credit = 50 ∧ x.calc_debit = 1150 := by
  refine ⟨⟨"101", 1000, 0, 200, 50, 1150, -150⟩, by rw [rollCalc_ex]; exact List.mem_singleton.mpr rfl, ?_⟩
  have h := (C2_a03_expected_balance_formula prevEx rowsEx).1
    ⟨"101", 1000, 0, 200, 50, 1150, -150⟩
    (by rw [rollCalc_ex]; exact List.mem_singleton.mpr rfl)
  refine ⟨rfl, rfl, rfl, ?_⟩
  rw [h.1]
  norm_num

/-- C3 as stated is false: after the netting step both expected sides can be
strictly positive.  With a prior debit balance of 10 on account 101 and
period activity of credit 5 (no debit), the code computes
`계산된_차변잔액 = 5` and `계산된_대변잔액 = 5`; neither netting mask
fires, so the netted intermediate row has `expected_debit = 5 > 0` and
`expected_credit = 5 > 0`, violating "at most one of the two is strictly
positive". -/
theorem C3_counterexample :
    ∃ x ∈ rollNetted
        [{ account_code := "101", account_name := "현금",
           debit_balance := 10, credit_balance := 0 }]
        [{ posting_date := 0, voucher_id := some "V1", account_code := "101",
           account_name := "현금", debit_amount := 0, credit_amount := 5,
           entry_date := 0, preparer := none, approver := none }],
      0 < x.calc_debit ∧ 0 < x.calc_credit := by
  have hev : rollNetted
      [{ account_code := "101", account_name := "현금",
         debit_balance := 10, credit_balance := 0 }]
      [{ posting_date := 0, voucher_id := some "V1", account_code := "101",
         account_name := "현금", debit_amount := 0, credit_amount := 5,
         entry_date := 0, preparer := none, approver := none }] =
      [⟨"101", 10, 0, 0, 5, 5, 5⟩] := by
    norm_num [rollNetted, rollCalc, rollMerge, rollStep3, netRow, netDr, netCr,
      cleanTB, trimSummary, a03SummaryRaw, accountCodes, accountDebit, accountCredit,
      strTrim_101, List.filter, List.dedup, List.flatMap]
  rw [hev]
  exact ⟨⟨"101", 10, 0, 0, 5, 5, 5⟩, List.mem_singleton.mpr rfl, by norm_num, by norm_num⟩

/-- Whatever the signs of the step-3 values, the sequential netting leaves
both sides non-negative. -/
theorem netRow_nonneg (y : CalcRow) :
    0 ≤ (netRow y).calc_debit ∧ 0 ≤ (netRow y).calc_credit := by
  unfold netRow netDr netCr
  split_ifs with h1 h2 h3 <;>
    constructor <;>
    simp_all <;>
    linarith [abs_nonneg y.calc_debit, abs_nonneg y.calc_credit,
      abs_nonneg (y.calc_credit + |y.calc_debit|)]

/-- C3 amended: after the netting step every row of the reconciler's
intermediate result has `expected_debit ≥ 0` and `expected_credit ≥ 0`.
The two adjustments are applied in sequence — the credit-side mask is
evaluated on the values the debit-side move produced, not on the pre-
adjustment values — and both sides may remain strictly positive at once. -/
theorem C3_amended_netting_nonneg (prev : List TBRow) (rows : List JournalRow) :
    ∀ x ∈ rollNetted prev rows, 0 ≤ x.calc_debit ∧ 0 ≤ x.calc_credit := by
  intro x hx
  simp only [rollNetted, List.mem_map] at hx
  obtain ⟨y, -, he⟩ := hx
  subst he
  exact netRow_nonneg y

theorem C3_amended_netting_nonneg_witness :
    0 ≤ (⟨"101", 10, 0, 0, 5, 5, 5⟩ : CalcRow).calc_debit ∧
    0 ≤ (⟨"101", 10, 0, 0, 5, 5, 5⟩ : CalcRow).calc_credit := by
  refine C3_amended_netting_nonneg
    [{ account_code := "101", account_name := "현금",
       debit_balance := 10, credit_balance := 0 }]
    [{ posting_date := 0, voucher_id := some "V1", account_code := "101",
       account_name := "현금", debit_amount := 0, credit_amount := 5,
       entry_date := 0, preparer := none, approver := none }]
    ⟨"101", 10, 0, 0, 5, 5, 5⟩ ?_
  norm_num [rollNetted, rollCalc, rollMerge, rollStep3, netRow, netDr, netCr,
    cleanTB, trimSummary, a03SummaryRaw, accountCodes, accountDebit, accountCredit,
    strTrim_101, List.filter, List.dedup, List.flatMap]

theorem mem_rollComparison_diffs {prev : List TBRow} {rows : List JournalRow}
    {curr : List TBRow} {r : CompRow} (hr : r ∈ rollComparison prev rows curr) :
    r.debit_diff = r.calc_debit - r.actual_debit ∧
    r.credit_diff = r.calc_credit - r.actual_credit := by
  simp only [rollComparison, List.mem_map] at hr
  obtain ⟨r0, -, he⟩ := hr
  subst he
  exact ⟨rfl, rfl⟩

theorem mem_rollDifferences {prev : List TBRow} {rows : List JournalRow}
    {curr : List TBRow} {r : CompRow} :
    r ∈ rollDifferences prev rows curr ↔
      r ∈ rollComparison prev rows curr ∧
        ((1 : Rat)/100 < |r.debit_diff| ∨ (1 : Rat)/100 < |r.credit_diff|) := by
  simp [rollDifferences, List.mem_filter]

/-- C4: the Roll-Forward Reconciler reports an account row as an exception
iff `|expected_debit − actual_debit| > 0.01` or
`|expected_credit − actual_credit| > 0.01`, where the comparison rows come
from the final outer join with zeros for missing sides; consequently when
the actual current trial balance equals the netted expectation on every
comparison row there are zero exceptions, and any comparison row carrying
a discrepancy above 0.01 is reported. -/
theorem C4_a03_exception_filter (prev : List TBRow) (rows : List JournalRow)
    (curr : List TBRow) :
    (∀ r ∈ rollComparison prev rows curr,
      r.debit_diff = r.calc_debit - r.actual_debit ∧
      r.credit_diff = r.calc_credit - r.actual_credit) ∧
    (∀ r, r ∈ rollDifferences prev rows curr ↔
      r ∈ rollComparison prev rows curr ∧
        ((1 : Rat)/100 < |r.calc_debit - r.actual_debit| ∨
         (1 : Rat)/100 < |r.calc_credit - r.actual_credit|)) ∧
    ((∀ r ∈ rollComparison prev rows curr,
        r.actual_debit = r.calc_debit ∧ r.actual_credit = r.calc_credit) →
      rollDifferences prev rows curr = []) ∧
    (∀ r ∈ rollComparison prev rows curr,
      (1 : Rat)/100 < |r.calc_debit - r.actual_debit| →
        r ∈ rollDifferences prev rows curr) := by
  refine ⟨fun r hr => mem_rollComparison_diffs hr, ?_, ?_, ?_⟩
  · intro r
    rw [mem_rollDifferences]
    constructor
    · rintro ⟨hmem, hgt⟩
      obtain ⟨h1, h2⟩ := mem_rollComparison_diffs hmem
      rw [h1, h2] at hgt
      exact ⟨hmem, hgt⟩
    · rintro ⟨hmem, hgt⟩
      obtain ⟨h1, h2⟩ := mem_rollComparison_diffs hmem
      rw [← h1, ← h2] at hgt
      exact ⟨hmem, hgt⟩
  · intro hall
    rw [rollDifferences, List.filter_eq_nil_iff]
    intro r hr
    obtain ⟨h1, h2⟩ := mem_rollComparison_diffs hr
    obtain ⟨ha, hb⟩ := hall r hr
    rw [h1, h2, ha, hb]
    norm_num
  · intro r hr hgt
    rw [mem_rollDifferences]
    obtain ⟨h1, -⟩ := mem_rollComparison_diffs hr
    rw [h1]
    exact ⟨hr, Or.inl hgt⟩

/-- Actual current trial balance matching the code's netted expectation for
`prevEx`/`rowsEx` (the sequential netting turns the pre-netting pair
(1150, −150) into (1300, 0)). -/
def currEx : List TBRow :=
  [{ account_code := "101", account_name := "현금", debit_balance := 1300, credit_balance := 0 }]

theorem rollComparison_ex :
    rollComparison prevEx rowsEx currEx = [⟨"101", 1300, 0, 1300, 0, 0, 0⟩] := by
  norm_num [rollComparison, rollJoinCurr, addDiffs, rollNetted, rollCalc, rollMerge,
    rollStep3, netRow, netDr, netCr, cleanTB, trimSummary, a03SummaryRaw, accountCodes,
    accountDebit, accountCredit, prevEx, rowsEx, currEx, strTrim_101, List.filter,
    List.dedup, List.flatMap]

theorem C4_a03_exception_filter_witness :
    rollDifferences prevEx rowsEx currEx = [] := by
  refine (C4_a03_exception_filter prevEx rowsEx currEx).2.2.1 ?_
  intro r hr
  rw [rollComparison_ex, List.mem_singleton] at hr
  subst hr
  exact ⟨rfl, rfl⟩

/-! ### String helpers for the detectors

`str.contains(pat, case=False)` and `str.startswith` are modelled with
structurally recursive character-list functions so they evaluate. -/

/-- `leadsChars p l`: `p` is a leading segment of `l`. -/
def leadsChars : List Char → List Char → Bool
  | [], _ => true
  | _ :: _, [] => false
  | p :: ps, c :: cs => p == c && leadsChars ps cs

/-- `hasSubChars p l`: `p` occurs contiguously inside `l`. -/
def hasSubChars (p : List Char) : List Char → Bool
  | [] => leadsChars p []
  | c :: cs => leadsChars p (c :: cs) || hasSubChars p cs

/-- Uppercase a string characterwise. -/
def upChars (s : String) : String :=
  ⟨s.data.map Char.toUpper⟩

/-- Case-insensitive substring test, the model of
`Series.str.contains(pattern, case=False)` for a literal pattern. -/
def containsCI (s pat : String) : Bool :=
  hasSubChars (upChars pat).data (upChars s).data

/-- Model of `str.startswith`. -/
def strStartsWith (s p : String) : Bool :=
  leadsChars p.data s.data

/-! ### A01 — 데이터 유효성 검증 (`scenario_a01_data_integrity`) -/

/-- Count of missing cells over the optional columns that exist
(`journal_df.isnull().sum()`); the required typed columns have no missing
values after ingestion's coercions. -/
def countMissing (j : Journal) : Nat :=
  (if j.hasVoucherId then (j.rows.filter (fun r => r.voucher_id == none)).length else 0) +
  (if j.hasPreparer then (j.rows.filter (fun r => r.preparer == none)).length else 0) +
  (if j.hasApprover then (j.rows.filter (fun r => r.approver == none)).length else 0)

/-- `journal_df.duplicated().sum()`: rows equal to an earlier row. -/
def countDuplicates (rows : List JournalRow) : Nat :=
  rows.length - rows.dedup.length

/-- A01: data-integrity issue messages.  The amount columns are numeric
after ingestion, so the non-numeric scan finds nothing. -/
def scenario_a01_data_integrity (j : Journal) : List String :=
  (if 0 < countMissing j then ["결측값 발견"] else []) ++
  (if 0 < countDuplicates j.rows then ["중복 레코드 발견"] else []) ++
  (if j.hasVoucherId && !(j.rows.filter (fun r => r.voucher_id == none)).isEmpty
    then ["전표번호가 누락된 항목 발견"] else [])

/-! ### B01 — 손익계정 중요성금액 분석 (`scenario_b01_large_items_test`) -/

/-- Profit/loss account: code starting with 4 (revenue) or 5 (expense). -/
def isPLCode (c : String) : Bool :=
  strStartsWith c "4" || strStartsWith c "5"

/-- `pl_accounts = journal_df[계정코드.str.startswith(('4','5'))]`. -/
def plRows (rows : List JournalRow) : List JournalRow :=
  rows.filter (fun r => isPLCode r.account_code)

/-- A `pl_summary` row; `net` is 0 until `b01AddNet` fills the 순금액
column. -/
structure PLRow where
  code : String
  name : String
  debit_total : Rat
  credit_total : Rat
  net : Rat
deriving DecidableEq, Repr

/-- `pl_summary = pl_accounts.groupby(['계정코드','계정과목']).agg(...)`. -/
def b01Summary (rows : List JournalRow) : List PLRow :=
  ((plRows rows).map (fun r => (r.account_code, r.account_name))).dedup.map
    (fun k => ⟨k.1, k.2,
      (((plRows rows).filter (fun r => r.account_code == k.1 && r.account_name == k.2)).map
        (·.debit_amount)).sum,
      (((plRows rows).filter (fun r => r.account_code == k.1 && r.account_name == k.2)).map
        (·.credit_amount)).sum,
      0⟩)

/-- `pl_summary['순금액'] = 차변금액 - 대변금액`. -/
def b01AddNet (l : List PLRow) : List PLRow :=
  l.map (fun g => { g with net := g.debit_total - g.credit_total })

/-- `large_items = pl_summary[abs(순금액) >= materiality_threshold]`. -/
def b01LargeItems (rows : List JournalRow) (materiality : Rat) : List PLRow :=
  (b01AddNet (b01Summary rows)).filter (fun g => decide (materiality ≤ |g.net|))

/-- B01: materiality screen over profit/loss accounts. -/
def scenario_b01_large_items_test (j : Journal) (materiality : Rat) : ProcResult (List PLRow) :=
  if (plRows j.rows).isEmpty then .cannotEval "손익계정이 발견되지 않았습니다."
  else .ok (b01LargeItems j.rows materiality)

/-! ### B02 — 비정상 계정 사용 검사 (`scenario_b02_unmatched_accounts`) -/

/-- Structurally unusual account code: length outside [3, 10], or a
character outside `[0-9A-Za-z]` (the `^[0-9A-Za-z]+$` regex). -/
def isUnusualCode (c : String) : Bool :=
  decide (c.length < 3) || decide (10 < c.length) || !(c.data.all Char.isAlphanum)

/-- B02 with the default chart of accounts: rows using an unusual code. -/
def scenario_b02_unmatched_accounts (j : Journal) : ProcResult (List JournalRow) :=
  .ok (j.rows.filter (fun r => isUnusualCode r.account_code))

/-! ### B03 — 신규 생성 계정과목 검사 (`scenario_b03_new_accounts`) -/

/-- Membership in `set(prev_tb_df['계정코드'].astype(str))`. -/
def inPrevTB (tb : List TBRow) (c : String) : Bool :=
  tb.any (fun p => p.account_code == c)

/-- Membership in `set(journal_df['계정코드'].astype(str))`. -/
def inJournalAccounts (rows : List JournalRow) (c : String) : Bool :=
  rows.any (fun r => r.account_code == c)

/-- Membership in `new_accounts = current_accounts - prev_accounts`. -/
def isNewAccount (rows : List JournalRow) (tb : List TBRow) (c : String) : Bool :=
  inJournalAccounts rows c && !inPrevTB tb c

/-- `journal_df[계정코드.isin(new_accounts)]`. -/
def b03Exceptions (rows : List JournalRow) (tb : List TBRow) : List JournalRow :=
  rows.filter (fun r => isNewAccount rows tb r.account_code)

/-- B03: rows using accounts absent from the prior trial balance; without a
prior trial balance the check cannot run. -/
def scenario_b03_new_accounts (j : Journal) (prev : Option (List TBRow)) :
    ProcResult (List JournalRow) :=
  match prev with
  | none => .cannotEval "전기 시산표가 없어 신규 계정을 확인할 수 없습니다."
  | some tb => .ok (b03Exceptions j.rows tb)

/-! ### B04 — 저빈도 사용 계정 검사 (`scenario_b04_seldom_used_accounts`) -/

/-- `journal_df['계정코드'].value_counts()` at one code. -/
def accountUseCount (rows : List JournalRow) (c : String) : Nat :=
  (rows.filter (fun r => r.account_code == c)).length

/-- B04: rows of accounts used at most `threshold` times. -/
def scenario_b04_seldom_used_accounts (j : Journal) (threshold : Nat) :
    ProcResult (List JournalRow) :=
  .ok (j.rows.filter (fun r => decide (accountUseCount j.rows r.account_code ≤ threshold)))

/-! ### B05 — 비정상 사용자 검사 (`scenario_b05_unusual_user`) -/

def b05SystemPatterns : List String := ["SYSTEM", "ADMIN", "TEST", "AUTO"]

/-- `user_counts = journal_df['입력사원'].value_counts()` at one name. -/
def preparerUseCount (rows : List JournalRow) (u : String) : Nat :=
  (rows.filter (fun r => r.preparer == some u)).length

/-- Whether a row's preparer is caught by B05 (lines 301-322): with no
authorized list, preparers used at most twice or matching a system/admin
pattern; with a list, preparers outside it (a missing preparer is outside
every list of names, and pandas `isin` then matches the missing cell). -/
def b05Flag (rows : List JournalRow) (authorized : Option (List String))
    (p : Option String) : Bool :=
  match authorized with
  | none =>
    match p with
    | some u => decide (preparerUseCount rows u ≤ 2) || b05SystemPatterns.any (containsCI u)
    | none => false
  | some auth =>
    match p with
    | some u => !auth.contains u
    | none => true

/-- B05: unusual-preparer screen. -/
def scenario_b05_unusual_user (j : Journal) (authorized : Option (List String)) :
    ProcResult (List JournalRow) :=
  if j.hasPreparer then .ok (j.rows.filter (fun r => b05Flag j.rows authorized r.preparer))
  else .cannotEval "입력사원 컬럼이 없어 분석할 수 없습니다."

/-! ### B06 — 권한 없는 사용자 검사 (`scenario_b06_inappropriate_user`) -/

def b06InappropriatePatterns : List String := ["CEO", "CFO", "감사", "외부", "GUEST", "임원"]

/-- Dictionary lookup in the caller-supplied `user_roles` map. -/
def lookupRole (roles : List (String × String)) (u : String) : Option String :=
  (roles.find? (fun p => p.1 == u)).map (·.2)

/-- Whether a row's preparer is caught by B06 (lines 332-351): with no role
map, a preparer matching an executive/audit/external/guest keyword; with a
role map, a preparer present in the map whose role is not
`input_authorized` (`user in user_roles and user_roles[user] !=
'input_authorized'`). -/
def b06Flag (roles : Option (List (String × String))) (p : Option String) : Bool :=
  match p with
  | none => false
  | some u =>
    match roles with
    | none => b06InappropriatePatterns.any (containsCI u)
    | some rs =>
      match lookupRole rs u with
      | some role => role != "input_authorized"
      | none => false

/-- B06: unauthorized-preparer screen. -/
def scenario_b06_inappropriate_user (j : Journal)
    (roles : Option (List (String × String))) : ProcResult (List JournalRow) :=
  if j.hasPreparer then .ok (j.rows.filter (fun r => b06Flag roles r.preparer))
  else .cannotEval "입력사원 컬럼이 없어 분석할 수 없습니다."

/-! ### B07 — 기표일 이후 입력 전표 분석 (`scenario_b07_back_dated_entries`) -/

/-- B07: rows posted on or before fiscal year end but entered after it. -/
def scenario_b07_back_dated_entries (j : Journal) (fiscal_year_end : Int) :
    ProcResult (List JournalRow) :=
  if j.hasEntryDate then
    .ok (j.rows.filter (fun r =>
      decide (r.posting_date ≤ fiscal_year_end) && decide (fiscal_year_end < r.entry_date)))
  else .cannotEval "입력일자 컬럼이 없어 분석할 수 없습니다."

/-! ### B08 — 입력자-승인자 동일 검사 (`scenario_b08_create_approve_same`) -/

/-- Pandas elementwise equality of the 입력사원 and 승인자 columns: a
missing value (`NaN`) compares unequal to everything, itself included, so
only rows with both cells present and equal match. -/
def b08Flag (r : JournalRow) : Bool :=
  match r.preparer, r.approver with
  | some p, some a => p == a
  | _, _ => false

/-- B08: preparer-equals-approver screen. -/
def scenario_b08_create_approve_same (j : Journal) : ProcResult (List JournalRow) :=
  if j.hasPreparer && j.hasApprover then .ok (j.rows.filter b08Flag)
  else .cannotEval "입력사원 또는 승인자 컬럼이 없어 분석할 수 없습니다."

/-! ### B09 — 비정상 계정 조합 검사 (`scenario_b09_corresponding_accounts`) -/

def cashAccountCodes : List String := ["101", "102", "103"]

/-- `acc.startswith(tuple(cash_accounts))`. -/
def isCashCode (c : String) : Bool :=
  cashAccountCodes.any (fun p => strStartsWith c p)

/-- Number of a voucher's lines whose account code starts with a cash
code (`cash_in_voucher`, lines 400-401). -/
def b09CashLines (rows : List JournalRow) (v : String) : Nat :=
  ((rowsOfVoucher rows v).filter (fun r => isCashCode r.account_code)).length

/-- One entry of `unusual_combinations`: a voucher and the pattern name it
was tagged with. -/
structure B09Tag where
  voucher : String
  pattern_name : String
deriving DecidableEq, Repr

/-- Lines 394-424: scan each voucher group for the cash-to-cash pattern
(two or more cash-prefixed lines) and the asset-liability direct-offset
pattern (an asset line and a liability line, exactly two lines, no
revenue/expense line). -/
def b09Tags (rows : List JournalRow) : List B09Tag :=
  (voucherIds rows).flatMap (fun v =>
    let g := rowsOfVoucher rows v
    let cash := if 2 ≤ b09CashLines rows v then [(⟨v, "현금-현금 거래"⟩ : B09Tag)] else []
    let assets := (g.filter (fun r =>
      strStartsWith r.account_code "1" || strStartsWith r.account_code "2")).length
    let liabilities := (g.filter (fun r => strStartsWith r.account_code "3")).length
    let revenueExpense := (g.filter (fun r =>
      strStartsWith r.account_code "4" || strStartsWith r.account_code "5")).length
    let offset := if 0 < assets && 0 < liabilities && g.length == 2 && revenueExpense == 0
      then [(⟨v, "자산-부채 직접상계"⟩ : B09Tag)] else []
    cash ++ offset)

/-- Lines 426-436: the returned frame repeats each tagged voucher's rows
with the 문제유형 column attached. -/
def b09Result (rows : List JournalRow) : List (JournalRow × String) :=
  (b09Tags rows).flatMap (fun t =>
    (rowsOfVoucher rows t.voucher).map (fun r => (r, t.pattern_name)))

/-- B09: suspicious account-combination screen. -/
def scenario_b09_corresponding_accounts (j : Journal) : ProcResult (List (JournalRow × String)) :=
  .ok (b09Result j.rows)

/-! ### Claim C5 — B06 with a caller-supplied role map -/

/-- A journal row prepared by `alice`. -/
def rowAlice : JournalRow :=
  { posting_date := 0, voucher_id := some "V1", account_code := "101",
    account_name := "현금", debit_amount := 100, credit_amount := 0,
    entry_date := 0, preparer := some "alice", approver := none }

/-- A journal with a preparer column whose only preparer is `alice`. -/
def jAlice : Journal :=
  { hasVoucherId := true, hasPreparer := true, hasApprover := false,
    hasEntryDate := false, rows := [rowAlice] }

/-- C5 as stated is false: with the caller-supplied role map empty, the
preparer `alice` is not present in the map, yet B06 reports no exception
row at all — the code only flags preparers that are present in the map
with a role other than `input_authorized`, never absent ones. -/
theorem C5_counterexample :
    lookupRole [] "alice" = none ∧
    rowAlice ∈ jAlice.rows ∧ rowAlice.preparer = some "alice" ∧
    scenario_b06_inappropriate_user jAlice (some []) = .ok [] :=
  ⟨rfl, List.mem_singleton.mpr rfl, rfl, rfl⟩

theorem b06Flag_roles_iff {roles : List (String × String)} {p : Option String} :
    b06Flag (some roles) p = true ↔
      ∃ u role, p = some u ∧ lookupRole roles u = some role ∧ role ≠ "input_authorized" := by
  cases hp : p with
  | none => simp [b06Flag]
  | some u =>
    cases hl : lookupRole roles u with
    | none => simp [b06Flag, hl]
    | some role => simp [b06Flag, hl, bne_iff_ne]

/-- C5 amended: for every journal with a preparer column and every
caller-supplied role map, B06 flags exactly the rows whose preparer is
present in the map with a role different from `input_authorized`;
preparers absent from the map (and rows with a missing preparer cell) are
not flagged. -/
theorem C5_amended_b06_role_map (j : Journal) (roles : List (String × String))
    (h : j.hasPreparer = true) :
    scenario_b06_inappropriate_user j (some roles) =
      .ok (j.rows.filter (fun x => b06Flag (some roles) x.preparer)) ∧
    (∀ r, r ∈ j.rows.filter (fun x => b06Flag (some roles) x.preparer) ↔
      r ∈ j.rows ∧ ∃ u role, r.preparer = some u ∧ lookupRole roles u = some role ∧
        role ≠ "input_authorized") := by
  refine ⟨by simp [scenario_b06_inappropriate_user, h], fun r => ?_⟩
  rw [List.mem_filter]
  exact and_congr_right (fun _ => b06Flag_roles_iff)

/-- A journal row prepared by `bob`. -/
def rowBob : JournalRow :=
  { posting_date := 0, voucher_id := some "V1", account_code := "101",
    account_name := "현금", debit_amount := 100, credit_amount := 0,
    entry_date := 0, preparer := some "bob", approver := none }

/-- A journal with a preparer column whose only preparer is `bob`. -/
def jBob : Journal :=
  { hasVoucherId := true, hasPreparer := true, hasApprover := false,
    hasEntryDate := false, rows := [rowBob] }

theorem C5_amended_b06_role_map_witness :
    rowBob ∈ jBob.rows.filter (fun x => b06Flag (some [("bob", "viewer")]) x.preparer) :=
  ((C5_amended_b06_role_map jBob [("bob", "viewer")] rfl).2 rowBob).mpr
    ⟨List.mem_singleton.mpr rfl, "bob", "viewer", rfl, rfl, by decide⟩

/-! ### Claim C6 — missing required columns give a distinct outcome -/

/-- C6: every procedure whose required column (or companion table) is
missing returns the tagged `cannotEval` outcome with the source's
non-empty message — never an `ok` with an empty exception list — for A02
without 전표번호, B05/B06 without 입력사원, B07 without 입력일자, B08
without 입력사원 or 승인자, and B03 without a prior trial balance. -/
theorem C6_missing_column_outcomes :
    (∀ j : Journal, j.hasVoucherId = false →
      scenario_a02_dr_cr_test j = .cannotEval "전표번호 컬럼이 없어 검증할 수 없습니다." ∧
      ∀ ex, scenario_a02_dr_cr_test j ≠ .ok ex) ∧
    (∀ (j : Journal) (au : Option (List String)), j.hasPreparer = false →
      scenario_b05_unusual_user j au = .cannotEval "입력사원 컬럼이 없어 분석할 수 없습니다." ∧
      ∀ ex, scenario_b05_unusual_user j au ≠ .ok ex) ∧
    (∀ (j : Journal) (ro : Option (List (String × String))), j.hasPreparer = false →
      scenario_b06_inappropriate_user j ro =
        .cannotEval "입력사원 컬럼이 없어 분석할 수 없습니다." ∧
      ∀ ex, scenario_b06_inappropriate_user j ro ≠ .ok ex) ∧
    (∀ (j : Journal) (fy : Int), j.hasEntryDate = false →
      scenario_b07_back_dated_entries j fy =
        .cannotEval "입력일자 컬럼이 없어 분석할 수 없습니다." ∧
      ∀ ex, scenario_b07_back_dated_entries j fy ≠ .ok ex) ∧
    (∀ j : Journal, j.hasPreparer = false ∨ j.hasApprover = false →
      scenario_b08_create_approve_same j =
        .cannotEval "입력사원 또는 승인자 컬럼이 없어 분석할 수 없습니다." ∧
      ∀ ex, scenario_b08_create_approve_same j ≠ .ok ex) ∧
    (∀ j : Journal,
      scenario_b03_new_accounts j none =
        .cannotEval "전기 시산표가 없어 신규 계정을 확인할 수 없습니다." ∧
      ∀ ex, scenario_b03_new_accounts j none ≠ .ok ex) ∧
    ("전표번호 컬럼이 없어 검증할 수 없습니다." ≠ "" ∧
     "입력사원 컬럼이 없어 분석할 수 없습니다." ≠ "" ∧
     "입력일자 컬럼이 없어 분석할 수 없습니다." ≠ "" ∧
     "입력사원 또는 승인자 컬럼이 없어 분석할 수 없습니다." ≠ "" ∧
     "전기 시산표가 없어 신규 계정을 확인할 수 없습니다." ≠ "") := by
  refine ⟨?_, ?_, ?_, ?_, ?_, ?_, by decide, by decide, by decide, by decide, by decide⟩
  · intro j h
    refine ⟨by simp [scenario_a02_dr_cr_test, h], ?_⟩
    intro ex
    simp [scenario_a02_dr_cr_test, h]
  · intro j au h
    refine ⟨by simp [scenario_b05_unusual_user, h], ?_⟩
    intro ex
    simp [scenario_b05_unusual_user, h]
  · intro j ro h
    refine ⟨by simp [scenario_b06_inappropriate_user, h], ?_⟩
    intro ex
    simp [scenario_b06_inappropriate_user, h]
  · intro j fy h
    refine ⟨by simp [scenario_b07_back_dated_entries, h], ?_⟩
    intro ex
    simp [scenario_b07_back_dated_entries, h]
  · intro j h
    have hand : (j.hasPreparer && j.hasApprover) = false := by
      rcases h with h | h <;> simp [h]
    refine ⟨by simp [scenario_b08_create_approve_same, hand], ?_⟩
    intro ex
    simp [scenario_b08_create_approve_same, hand]
  · intro j
    exact ⟨rfl, fun ex => by simp [scenario_b03_new_accounts]⟩

/-- A journal with none of the optional columns. -/
def jBare : Journal :=
  { hasVoucherId := false, hasPreparer := false, hasApprover := false,
    hasEntryDate := false, rows := [] }

theorem C6_missing_column_outcomes_witness :
    scenario_a02_dr_cr_test jBare = .cannotEval "전표번호 컬럼이 없어 검증할 수 없습니다." ∧
    scenario_b08_create_approve_same jBare =
      .cannotEval "입력사원 또는 승인자 컬럼이 없어 분석할 수 없습니다." :=
  ⟨(C6_missing_column_outcomes.1 jBare rfl).1,
   (C6_missing_column_outcomes.2.2.2.2.1 jBare (Or.inl rfl)).1⟩

/-! ### Claim C7 — B09 cash-to-cash pattern -/

theorem mem_b09Tags_cash {rows : List JournalRow} {v : String} :
    (⟨v, "현금-현금 거래"⟩ : B09Tag) ∈ b09Tags rows ↔
      v ∈ voucherIds rows ∧ 2 ≤ b09CashLines rows v := by
  simp only [b09Tags, List.mem_flatMap]
  constructor
  · rintro ⟨v', hv', hmem⟩
    simp only [List.mem_append] at hmem
    rcases hmem with h | h
    · by_cases hc : 2 ≤ b09CashLines rows v'
      · rw [if_pos hc, List.mem_singleton] at h
        have hv2 : v = v' := congrArg B09Tag.voucher h
        subst hv2
        exact ⟨hv', hc⟩
      · rw [if_neg hc] at h
        exact absurd h (List.not_mem_nil _)
    · split at h
      · rw [List.mem_singleton] at h
        have hpat : ("현금-현금 거래" : String) = "자산-부채 직접상계" :=
          congrArg B09Tag.pattern_name h
        exact absurd hpat (by decide)
      · exact absurd h (List.not_mem_nil _)
  · rintro ⟨hv, hc⟩
    exact ⟨v, hv, List.mem_append.mpr (Or.inl (by rw [if_pos hc]; exact List.mem_singleton.mpr rfl))⟩

/-- C7: B09 tags a voucher with the cash-to-cash pattern iff two or more of
its lines carry an account code starting with one of the cash prefixes
101/102/103; in particular a voucher of exactly two lines that are all
cash-prefixed is tagged, and a voucher with exactly one cash-prefixed line
is not tagged with this pattern. -/
theorem C7_b09_cash_to_cash (rows : List JournalRow) :
    (∀ v : String, (⟨v, "현금-현금 거래"⟩ : B09Tag) ∈ b09Tags rows ↔
      (∃ r ∈ rows, r.voucher_id = some v) ∧ 2 ≤ b09CashLines rows v) ∧
    (∀ v : String, (∃ r ∈ rows, r.voucher_id = some v) →
      (rowsOfVoucher rows v).length = 2 →
      (∀ r ∈ rowsOfVoucher rows v, isCashCode r.account_code = true) →
      (⟨v, "현금-현금 거래"⟩ : B09Tag) ∈ b09Tags rows) ∧
    (∀ v : String, b09CashLines rows v = 1 →
      (⟨v, "현금-현금 거래"⟩ : B09Tag) ∉ b09Tags rows) := by
  have key : ∀ v : String, (⟨v, "현금-현금 거래"⟩ : B09Tag) ∈ b09Tags rows ↔
      (∃ r ∈ rows, r.voucher_id = some v) ∧ 2 ≤ b09CashLines rows v := by
    intro v
    rw [mem_b09Tags_cash, mem_voucherIds]
  refine ⟨key, ?_, ?_⟩
  · intro v hex hlen hall
    refine (key v).mpr ⟨hex, ?_⟩
    have hfil : (rowsOfVoucher rows v).filter (fun r => isCashCode r.account_code) =
        rowsOfVoucher rows v := List.filter_eq_self.mpr hall
    rw [b09CashLines, hfil, hlen]
  · intro v hone hmem
    have := ((key v).mp hmem).2
    omega

/-- Voucher `V1` consists of exactly two lines, both on cash-prefixed
accounts (10110 and 10210); voucher `V2` has exactly one cash-prefixed
line. -/
def rowsB09 : List JournalRow :=
  [{ posting_date := 0, voucher_id := some "V1", account_code := "10110",
     account_name := "현금", debit_amount := 100, credit_amount := 0,
     entry_date := 0, preparer := none, approver := none },
   { posting_date := 0, voucher_id := some "V1", account_code := "10210",
     account_name := "보통예금", debit_amount := 0, credit_amount := 100,
     entry_date := 0, preparer := none, approver := none },
   { posting_date := 0, voucher_id := some "V2", account_code := "10110",
     account_name := "현금", debit_amount := 50, credit_amount := 0,
     entry_date := 0, preparer := none, approver := none },
   { posting_date := 0, voucher_id := some "V2", account_code := "40100",
     account_name := "매출", debit_amount := 0, credit_amount := 50,
     entry_date := 0, preparer := none, approver := none }]

theorem C7_b09_cash_to_cash_witness :
    (⟨"V1", "현금-현금 거래"⟩ : B09Tag) ∈ b09Tags rowsB09 ∧
    (⟨"V2", "현금-현금 거래"⟩ : B09Tag) ∉ b09Tags rowsB09 :=
  ⟨(C7_b09_cash_to_cash rowsB09).2.1 "V1"
      ⟨rowsB09.head (by decide), by decide, by decide⟩ (by decide) (by decide),
   (C7_b09_cash_to_cash rowsB09).2.2 "V2" (by decide)⟩

/-! ### Claim C8 — B03 set difference and relabeling invariance -/

/-- Rename one journal row's account code. -/
def renameRow (f : String → String) (r : JournalRow) : JournalRow :=
  { r with account_code := f r.account_code }

/-- Rename one trial-balance row's account code. -/
def renameTB (f : String → String) (p : TBRow) : TBRow :=
  { p with account_code := f p.account_code }

theorem mem_b03Exceptions {rows : List JournalRow} {tb : List TBRow} {r : JournalRow} :
    r ∈ b03Exceptions rows tb ↔ r ∈ rows ∧ inPrevTB tb r.account_code = false := by
  rw [b03Exceptions, List.mem_filter]
  refine and_congr_right (fun hr => ?_)
  unfold isNewAccount
  have hj : inJournalAccounts rows r.account_code = true := by
    simp only [inJournalAccounts, List.any_eq_true]
    exact ⟨r, hr, by simp⟩
  simp [hj]

theorem inPrevTB_map {tb : List TBRow} {f : String → String}
    (hf : Function.Injective f) (c : String) :
    inPrevTB (tb.map (renameTB f)) (f c) = inPrevTB tb c := by
  rw [Bool.eq_iff_iff]
  simp only [inPrevTB, List.any_eq_true, List.mem_map, beq_iff_eq]
  constructor
  · rintro ⟨p', ⟨p, hp, rfl⟩, he⟩
    exact ⟨p, hp, hf he⟩
  · rintro ⟨p, hp, he⟩
    exact ⟨renameTB f p, ⟨p, hp, rfl⟩, congrArg f he⟩

theorem renameRow_injective {f : String → String} (hf : Function.Injective f) :
    Function.Injective (renameRow f) := by
  intro a b h
  have hcode : f a.account_code = f b.account_code := congrArg JournalRow.account_code h
  have hac := hf hcode
  cases a
  cases b
  simp only [renameRow, JournalRow.mk.injEq] at h ⊢
  simp_all

/-- C8: B03 flags exactly the journal rows whose account code is in the
journal's code set but not in the prior trial balance's code set; and for
every injective renaming of account codes applied to both tables, a
renamed row is flagged after renaming iff the original row was flagged
before. -/
theorem C8_b03_relabel_invariance (rows : List JournalRow) (tb : List TBRow)
    (f : String → String) (hf : Function.Injective f) :
    (∀ r, r ∈ b03Exceptions rows tb ↔
      r ∈ rows ∧ inJournalAccounts rows r.account_code = true ∧
        inPrevTB tb r.account_code = false) ∧
    (∀ r ∈ rows,
      renameRow f r ∈ b03Exceptions (rows.map (renameRow f)) (tb.map (renameTB f)) ↔
        r ∈ b03Exceptions rows tb) := by
  constructor
  · intro r
    rw [mem_b03Exceptions]
    constructor
    · rintro ⟨hr, hp⟩
      refine ⟨hr, ?_, hp⟩
      simp only [inJournalAccounts, List.any_eq_true]
      exact ⟨r, hr, by simp⟩
    · rintro ⟨hr, -, hp⟩
      exact ⟨hr, hp⟩
  · intro r hr
    rw [mem_b03Exceptions, mem_b03Exceptions]
    have hmap : renameRow f r ∈ rows.map (renameRow f) := List.mem_map_of_mem _ hr
    have hcode : (renameRow f r).account_code = f r.account_code := rfl
    rw [hcode, inPrevTB_map hf]
    simp [hmap, hr]

/-- Concrete injective renaming: prepend `N`. -/
def renameF (s : String) : String :=
  ⟨'N' :: s.data⟩

theorem renameF_injective : Function.Injective renameF := by
  intro a b h
  cases a
  cases b
  unfold renameF at h
  injection h with hdata
  injection hdata with hhead htail
  simp only [] at htail
  exact congrArg String.mk htail

/-- Journal using account 999 (absent from the prior trial balance). -/
def rowsB03 : List JournalRow :=
  [{ posting_date := 0, voucher_id := some "V1", account_code := "999",
     account_name := "신규계정", debit_amount := 10, credit_amount := 0,
     entry_date := 0, preparer := none, approver := none }]

/-- Prior trial balance holding only account 101. -/
def tbB03 : List TBRow :=
  [{ account_code := "101", account_name := "현금", debit_balance := 0, credit_balance := 0 }]

theorem C8_b03_relabel_invariance_witness :
    renameRow renameF (rowsB03.head (by decide)) ∈
      b03Exceptions (rowsB03.map (renameRow renameF)) (tbB03.map (renameTB renameF)) :=
  ((C8_b03_relabel_invariance rowsB03 tbB03 renameF renameF_injective).2
    (rowsB03.head (by decide)) (by decide)).mpr (by decide)

/-! ### Claim C10 — B08 ignores rows with missing preparer and approver -/

theorem b08Flag_iff {r : JournalRow} :
    b08Flag r = true ↔ ∃ u, r.preparer = some u ∧ r.approver = some u := by
  unfold b08Flag
  cases hp : r.preparer with
  | none => simp
  | some u =>
    cases ha : r.approver with
    | none => simp
    | some a =>
      simp only [beq_iff_eq, Option.some.injEq]
      constructor
      · rintro rfl
        exact ⟨u, rfl, rfl⟩
      · rintro ⟨u', rfl, h⟩
        exact h.symm


/-- C10: for every journal with both the preparer and approver columns,
B08's exception set is exactly the rows whose preparer and approver are
both present and equal; a row whose preparer and approver are both missing
is not flagged. -/
theorem C10_b08_null_cells_not_flagged (j : Journal)
    (hp : j.hasPreparer = true) (ha : j.hasApprover = true) :
    scenario_b08_create_approve_same j = .ok (j.rows.filter b08Flag) ∧
    (∀ r, r ∈ j.rows.filter b08Flag ↔
      r ∈ j.rows ∧ ∃ u, r.preparer = some u ∧ r.approver = some u) ∧
    (∀ r ∈ j.rows, r.preparer = none → r.approver = none →
      r ∉ j.rows.filter b08Flag) := by
  refine ⟨by simp [scenario_b08_create_approve_same, hp, ha], fun r => ?_, ?_⟩
  · rw [List.mem_filter]
    exact and_congr_right (fun _ => b08Flag_iff)
  · intro r hr hpn han hmem
    obtain ⟨u, hu, -⟩ := b08Flag_iff.mp (List.mem_filter.mp hmem).2
    rw [hpn] at hu
    exact Option.noConfusion hu

/-- Journal for B08: one row with both user cells missing, one row where
preparer and approver are both `kim`. -/
def jB08 : Journal :=
  { hasVoucherId := true, hasPreparer := true, hasApprover := true,
    hasEntryDate := false, rows :=
    [{ posting_date := 0, voucher_id := some "V1", account_code := "101",
       account_name := "현금", debit_amount := 10, credit_amount := 0,
       entry_date := 0, preparer := none, approver := none },
     { posting_date := 0, voucher_id := some "V2", account_code := "101",
       account_name := "현금", debit_amount := 0, credit_amount := 10,
       entry_date := 0, preparer := some "kim", approver := some "kim" }] }

theorem C10_b08_null_cells_not_flagged_witness :
    (jB08.rows.head (by decide)) ∉ jB08.rows.filter b08Flag ∧
    (jB08.rows.get ⟨1, by decide⟩) ∈ jB08.rows.filter b08Flag :=
  ⟨(C10_b08_null_cells_not_flagged jB08 rfl rfl).2.2 (jB08.rows.head (by decide))
      (by decide) rfl rfl,
   ((C10_b08_null_cells_not_flagged jB08 rfl rfl).2.1 (jB08.rows.get ⟨1, by decide⟩)).mpr
      ⟨by decide, "kim", rfl, rfl⟩⟩

/-! ### Claim C9 — procedures do not mutate their input tables

The source's procedures assign columns in place, but only on frames they
created themselves: `.copy()` results (a03 lines 162-171, b07 line 363),
`groupby(...).agg(...)` results (a02 line 135, a03 line 156, b01 line
226), merge results (a03 lines 177, 198) and boolean-indexing results
(a02 line 141) — all fresh pandas objects.  To turn "the three input
tables are left exactly as passed" into a theorem instead of a modelling
convention, each procedure is restated as a heap program: the heap is a
list of table cells, the caller's tables live in pre-existing cells,
`h ++ [c]` allocates a fresh frame, and every in-place column assignment
of the source is an `hwrite` to the cell of the frame it targets.  The
values written are carried by `let`s holding the same pure stages used
above. -/

/-- A heap cell: one pandas frame. -/
inductive Cell where
  | jn : Journal → Cell
  | tb : List TBRow → Cell
  | vs : List VSRow → Cell
  | a02 : List A02Row → Cell
  | sm : List SRow → Cell
  | mg : List MRow → Cell
  | cr : List CalcRow → Cell
  | cp : List CompRow → Cell
  | pl : List PLRow → Cell
  | b9 : List (JournalRow × String) → Cell
deriving DecidableEq, Repr

/-- In-place update of the frame held by cell `i`. -/
def hwrite (h : List Cell) (i : Nat) (c : Cell) : List Cell :=
  h.set i c

/-- Read a journal frame out of the heap. -/
def hreadJn (h : List Cell) (i : Nat) : Journal :=
  match h.get? i with
  | some (.jn j) => j
  | _ => ⟨false, false, false, false, []⟩

/-- Read a trial-balance frame out of the heap. -/
def hreadTB (h : List Cell) (i : Nat) : List TBRow :=
  match h.get? i with
  | some (.tb t) => t
  | _ => []

/-- `Extends h0 h1`: every cell of `h0` is still present, untouched, in
`h1` (new cells may have been appended after them). -/
def Extends (h0 h1 : List Cell) : Prop :=
  h0.length ≤ h1.length ∧ ∀ i, i < h0.length → h1.get? i = h0.get? i

theorem extends_refl (h : List Cell) : Extends h h :=
  ⟨le_refl _, fun _ _ => rfl⟩

theorem extends_append {h0 h1 : List Cell} (he : Extends h0 h1) (c : Cell) :
    Extends h0 (h1 ++ [c]) := by
  refine ⟨le_trans he.1 (by simp), fun i hi => ?_⟩
  rw [List.get?_append (lt_of_lt_of_le hi he.1), he.2 i hi]

theorem extends_set_fresh {h0 h1 : List Cell} {c : Cell} {i : Nat}
    (he : Extends h0 h1) (hi : h0.length ≤ i) : Extends h0 (hwrite h1 i c) := by
  refine ⟨by simpa [hwrite] using he.1, fun k hk => ?_⟩
  rw [hwrite, List.get?_set_ne _ _ (by omega), he.2 k hk]

theorem hreadJn_of_extends {h0 h1 : List Cell} (he : Extends h0 h1) {i : Nat}
    (hi : i < h0.length) : hreadJn h1 i = hreadJn h0 i := by
  unfold hreadJn
  rw [he.2 i hi]

theorem hreadTB_of_extends {h0 h1 : List Cell} (he : Extends h0 h1) {i : Nat}
    (hi : i < h0.length) : hreadTB h1 i = hreadTB h0 i := by
  unfold hreadTB
  rw [he.2 i hi]

/-- A01 as a heap program: a pure scan, no allocation, no write. -/
def a01Heap (h : List Cell) (pJ : Nat) : List Cell × List String :=
  (h, scenario_a01_data_integrity (hreadJn h pJ))

/-- A02 as a heap program: `voucher_summary` and `unbalanced` are fresh
frames; adding the 차이금액 column (line 146) writes into `unbalanced`. -/
def a02Heap (h : List Cell) (pJ : Nat) : List Cell × ProcResult (List A02Row) :=
  let j := hreadJn h pJ
  if j.hasVoucherId then
    let summary := a02Summary j.rows
    let h1 := h ++ [Cell.vs summary]
    let unb := a02Filter summary
    let h2 := h1 ++ [Cell.vs unb]
    let unb2 := a02AddDiff unb
    let h3 := hwrite h2 h1.length (Cell.a02 unb2)
    (h3, .ok unb2)
  else (h, .cannotEval "전표번호 컬럼이 없어 검증할 수 없습니다.")

/-- A03 as a heap program: the summary, the two `.copy()` frames, `merged`
and `comparison` are fresh; every in-place column assignment of lines
163-174, 180-195 and 201-207 writes into the corresponding fresh cell. -/
def a03Heap (h : List Cell) (pP pJ pC : Nat) : List Cell × ProcResult (List CompRow) :=
  let prev := hreadTB h pP
  let j := hreadJn h pJ
  let curr := hreadTB h pC
  let s0 := a03SummaryRaw j.rows
  let h1 := h ++ [Cell.sm s0]
  let s1 := trimSummary s0
  let h2 := hwrite h1 h.length (Cell.sm s1)
  let h3 := h2 ++ [Cell.tb prev]
  let prevC := cleanTB prev
  let h4 := hwrite h3 h2.length (Cell.tb prevC)
  let h5 := h4 ++ [Cell.tb curr]
  let currC := cleanTB curr
  let h6 := hwrite h5 h4.length (Cell.tb currC)
  let m0 := rollMerge prevC s1
  let h7 := h6 ++ [Cell.mg m0]
  let m1 := m0.map rollStep3
  let h8 := hwrite h7 h6.length (Cell.cr m1)
  let m2 := m1.map netDr
  let h9 := hwrite h8 h6.length (Cell.cr m2)
  let m3 := m2.map netCr
  let h10 := hwrite h9 h6.length (Cell.cr m3)
  let c0 := rollJoinCurr m3 currC
  let h11 := h10 ++ [Cell.cp c0]
  let c1 := c0.map addDiffs
  let h12 := hwrite h11 h10.length (Cell.cp c1)
  let diffs := c1.filter (fun r =>
    decide ((1 : Rat)/100 < |r.debit_diff|) || decide ((1 : Rat)/100 < |r.credit_diff|))
  let h13 := h12 ++ [Cell.cp diffs]
  (h13, .ok diffs)

/-- B01 as a heap program: `pl_accounts` and `pl_summary` are fresh; the
순금액 column (line 231) writes into `pl_summary`. -/
def b01Heap (h : List Cell) (pJ : Nat) (materiality : Rat) :
    List Cell × ProcResult (List PLRow) :=
  let j := hreadJn h pJ
  let pla := plRows j.rows
  let h1 := h ++ [Cell.jn { j with rows := pla }]
  if pla.isEmpty then (h1, .cannotEval "손익계정이 발견되지 않았습니다.")
  else
    let s0 := b01Summary j.rows
    let h2 := h1 ++ [Cell.pl s0]
    let s1 := b01AddNet s0
    let h3 := hwrite h2 h1.length (Cell.pl s1)
    let large := s1.filter (fun g => decide (materiality ≤ |g.net|))
    let h4 := h3 ++ [Cell.pl large]
    (h4, .ok large)

/-- B02 as a heap program: only the boolean-indexed result is allocated. -/
def b02Heap (h : List Cell) (pJ : Nat) : List Cell × ProcResult (List JournalRow) :=
  let j := hreadJn h pJ
  let res := j.rows.filter (fun r => isUnusualCode r.account_code)
  let h1 := h ++ [Cell.jn { j with rows := res }]
  (h1, .ok res)

/-- B03 as a heap program. -/
def b03Heap (h : List Cell) (pJ : Nat) (pP : Option Nat) :
    List Cell × ProcResult (List JournalRow) :=
  match pP with
  | none => (h, .cannotEval "전기 시산표가 없어 신규 계정을 확인할 수 없습니다.")
  | some p =>
    let j := hreadJn h pJ
    let tb := hreadTB h p
    let res := b03Exceptions j.rows tb
    let h1 := h ++ [Cell.jn { j with rows := res }]
    (h1, .ok res)

/-- B04 as a heap program. -/
def b04Heap (h : List Cell) (pJ : Nat) (threshold : Nat) :
    List Cell × ProcResult (List JournalRow) :=
  let j := hreadJn h pJ
  let res := j.rows.filter (fun r => decide (accountUseCount j.rows r.account_code ≤ threshold))
  let h1 := h ++ [Cell.jn { j with rows := res }]
  (h1, .ok res)

/-- B05 as a heap program. -/
def b05Heap (h : List Cell) (pJ : Nat) (authorized : Option (List String)) :
    List Cell × ProcResult (List JournalRow) :=
  let j := hreadJn h pJ
  if j.hasPreparer then
    let res := j.rows.filter (fun r => b05Flag j.rows authorized r.preparer)
    let h1 := h ++ [Cell.jn { j with rows := res }]
    (h1, .ok res)
  else (h, .cannotEval "입력사원 컬럼이 없어 분석할 수 없습니다.")

/-- B06 as a heap program. -/
def b06Heap (h : List Cell) (pJ : Nat) (roles : Option (List (String × String))) :
    List Cell × ProcResult (List JournalRow) :=
  let j := hreadJn h pJ
  if j.hasPreparer then
    let res := j.rows.filter (fun r => b06Flag roles r.preparer)
    let h1 := h ++ [Cell.jn { j with rows := res }]
    (h1, .ok res)
  else (h, .cannotEval "입력사원 컬럼이 없어 분석할 수 없습니다.")

/-- B07 as a heap program: `journal_df.copy()` is fresh, and the two
`pd.to_datetime` assignments (lines 364-365, identities on the already
typed dates) write into the copy. -/
def b07Heap (h : List Cell) (pJ : Nat) (fiscal_year_end : Int) :
    List Cell × ProcResult (List JournalRow) :=
  let j := hreadJn h pJ
  if j.hasEntryDate then
    let h1 := h ++ [Cell.jn j]
    let h2 := hwrite h1 h.length (Cell.jn j)
    let res := j.rows.filter (fun r =>
      decide (r.posting_date ≤ fiscal_year_end) && decide (fiscal_year_end < r.entry_date))
    let h3 := h2 ++ [Cell.jn { j with rows := res }]
    (h3, .ok res)
  else (h, .cannotEval "입력일자 컬럼이 없어 분석할 수 없습니다.")

/-- B08 as a heap program. -/
def b08Heap (h : List Cell) (pJ : Nat) : List Cell × ProcResult (List JournalRow) :=
  let j := hreadJn h pJ
  if j.hasPreparer && j.hasApprover then
    let res := j.rows.filter b08Flag
    let h1 := h ++ [Cell.jn { j with rows := res }]
    (h1, .ok res)
  else (h, .cannotEval "입력사원 또는 승인자 컬럼이 없어 분석할 수 없습니다.")

/-- B09 as a heap program: the per-combo `group.copy()` frames and the
concatenated result are fresh (the 문제유형 assignments of line 433 write
into those copies, summarized here as the allocated result frame). -/
def b09Heap (h : List Cell) (pJ : Nat) : List Cell × ProcResult (List (JournalRow × String)) :=
  let j := hreadJn h pJ
  let res := b09Result j.rows
  let h1 := h ++ [Cell.b9 res]
  (h1, .ok res)

theorem a01Heap_spec (h : List Cell) (pJ : Nat) :
    Extends h (a01Heap h pJ).1 ∧
    (a01Heap h pJ).2 = scenario_a01_data_integrity (hreadJn h pJ) :=
  ⟨extends_refl h, rfl⟩

theorem a02Heap_spec (h : List Cell) (pJ : Nat) :
    Extends h (a02Heap h pJ).1 ∧
    (a02Heap h pJ).2 = scenario_a02_dr_cr_test (hreadJn h pJ) := by
  unfold a02Heap scenario_a02_dr_cr_test
  cases hc : (hreadJn h pJ).hasVoucherId
  · simp only [hc, Bool.false_eq_true, if_false]
    exact ⟨extends_refl h, by trivial⟩
  · simp only [hc, if_true]
    refine ⟨?_, by trivial⟩
    exact extends_set_fresh (extends_append (extends_append (extends_refl h) _) _) (by simp)

theorem a03Heap_extends (h : List Cell) (pP pJ pC : Nat) :
    Extends h (a03Heap h pP pJ pC).1 := by
  unfold a03Heap
  dsimp only
  refine extends_append (extends_set_fresh (extends_append (extends_set_fresh
    (extends_set_fresh (extends_set_fresh (extends_append (extends_set_fresh
    (extends_append (extends_set_fresh (extends_append (extends_set_fresh
    (extends_append (extends_refl h) _) ?_) _) ?_) _) ?_) _) ?_) ?_) ?_) _) ?_) _ <;>
    first
      | (simp only [hwrite, List.length_set, List.length_append]; omega)
      | omega

theorem a03Heap_result (h : List Cell) (pP pJ pC : Nat) :
    (a03Heap h pP pJ pC).2 =
      scenario_a03_rollforward_test (some (hreadTB h pP)) (some (hreadJn h pJ))
        (some (hreadTB h pC)) := by
  unfold a03Heap scenario_a03_rollforward_test
  dsimp only
  congr 1
  unfold rollDifferences rollComparison rollNetted rollCalc
  simp only [List.map_map]
  congr 1

theorem b01Heap_spec (h : List Cell) (pJ : Nat) (m : Rat) :
    Extends h (b01Heap h pJ m).1 ∧
    (b01Heap h pJ m).2 = scenario_b01_large_items_test (hreadJn h pJ) m := by
  unfold b01Heap scenario_b01_large_items_test
  cases hc : (plRows (hreadJn h pJ).rows).isEmpty
  · simp only [hc, Bool.false_eq_true, if_false]
    refine ⟨?_, by trivial⟩
    exact extends_append (extends_set_fresh (extends_append (extends_append
      (extends_refl h) _) _) (by simp)) _
  · simp only [hc, if_true]
    exact ⟨extends_append (extends_refl h) _, by trivial⟩

theorem b02Heap_spec (h : List Cell) (pJ : Nat) :
    Extends h (b02Heap h pJ).1 ∧
    (b02Heap h pJ).2 = scenario_b02_unmatched_accounts (hreadJn h pJ) :=
  ⟨extends_append (extends_refl h) _, rfl⟩

theorem b03Heap_spec (h : List Cell) (pJ : Nat) (pP : Option Nat) :
    Extends h (b03Heap h pJ pP).1 ∧
    (b03Heap h pJ pP).2 =
      scenario_b03_new_accounts (hreadJn h pJ) (pP.map (fun p => hreadTB h p)) := by
  cases pP with
  | none => exact ⟨extends_refl h, rfl⟩
  | some p => exact ⟨extends_append (extends_refl h) _, rfl⟩

theorem b04Heap_spec (h : List Cell) (pJ : Nat) (t : Nat) :
    Extends h (b04Heap h pJ t).1 ∧
    (b04Heap h pJ t).2 = scenario_b04_seldom_used_accounts (hreadJn h pJ) t :=
  ⟨extends_append (extends_refl h) _, rfl⟩

theorem b05Heap_spec (h : List Cell) (pJ : Nat) (au : Option (List String)) :
    Extends h (b05Heap h pJ au).1 ∧
    (b05Heap h pJ au).2 = scenario_b05_unusual_user (hreadJn h pJ) au := by
  unfold b05Heap scenario_b05_unusual_user
  cases hc : (hreadJn h pJ).hasPreparer
  · simp only [hc, Bool.false_eq_true, if_false]
    exact ⟨extends_refl h, by trivial⟩
  · simp only [hc, if_true]
    exact ⟨extends_append (extends_refl h) _, by trivial⟩

theorem b06Heap_spec (h : List Cell) (pJ : Nat) (ro : Option (List (String × String))) :
    Extends h (b06Heap h pJ ro).1 ∧
    (b06Heap h pJ ro).2 = scenario_b06_inappropriate_user (hreadJn h pJ) ro := by
  unfold b06Heap scenario_b06_inappropriate_user
  cases hc : (hreadJn h pJ).hasPreparer
  · simp only [hc, Bool.false_eq_true, if_false]
    exact ⟨extends_refl h, by trivial⟩
  · simp only [hc, if_true]
    exact ⟨extends_append (extends_refl h) _, by trivial⟩

theorem b07Heap_spec (h : List Cell) (pJ : Nat) (fy : Int) :
    Extends h (b07Heap h pJ fy).1 ∧
    (b07Heap h pJ fy).2 = scenario_b07_back_dated_entries (hreadJn h pJ) fy := by
  unfold b07Heap scenario_b07_back_dated_entries
  cases hc : (hreadJn h pJ).hasEntryDate
  · simp only [hc, Bool.false_eq_true, if_false]
    exact ⟨extends_refl h, by trivial⟩
  · simp only [hc, if_true]
    refine ⟨?_, by trivial⟩
    exact extends_append (extends_set_fresh (extends_append (extends_refl h) _) (by simp)) _

theorem b08Heap_spec (h : List Cell) (pJ : Nat) :
    Extends h (b08Heap h pJ).1 ∧
    (b08Heap h pJ).2 = scenario_b08_create_approve_same (hreadJn h pJ) := by
  unfold b08Heap scenario_b08_create_approve_same
  cases hc : ((hreadJn h pJ).hasPreparer && (hreadJn h pJ).hasApprover)
  · simp only [hc, Bool.false_eq_true, if_false]
    exact ⟨extends_refl h, by trivial⟩
  · simp only [hc, if_true]
    exact ⟨extends_append (extends_refl h) _, by trivial⟩

theorem b09Heap_spec (h : List Cell) (pJ : Nat) :
    Extends h (b09Heap h pJ).1 ∧
    (b09Heap h pJ).2 = scenario_b09_corresponding_accounts (hreadJn h pJ) :=
  ⟨extends_append (extends_refl h) _, rfl⟩

/-- C9: every procedure, run as a heap program whose in-place writes target
only the frames it allocated itself, leaves every pre-existing heap cell —
in particular the caller's journal and trial-balance tables — exactly as
it was passed, and returns the pure function of the tables it read;
consequently running one procedure first does not change another's result
(shown for B08 before A02 on the same journal cell). -/
theorem C9_procedures_pure_frame :
    (∀ (h : List Cell) (pJ : Nat), Extends h (a01Heap h pJ).1 ∧
      (a01Heap h pJ).2 = scenario_a01_data_integrity (hreadJn h pJ)) ∧
    (∀ (h : List Cell) (pJ : Nat), Extends h (a02Heap h pJ).1 ∧
      (a02Heap h pJ).2 = scenario_a02_dr_cr_test (hreadJn h pJ)) ∧
    (∀ (h : List Cell) (pP pJ pC : Nat), Extends h (a03Heap h pP pJ pC).1 ∧
      (a03Heap h pP pJ pC).2 =
        scenario_a03_rollforward_test (some (hreadTB h pP)) (some (hreadJn h pJ))
          (some (hreadTB h pC))) ∧
    (∀ (h : List Cell) (pJ : Nat) (m : Rat), Extends h (b01Heap h pJ m).1 ∧
      (b01Heap h pJ m).2 = scenario_b01_large_items_test (hreadJn h pJ) m) ∧
    (∀ (h : List Cell) (pJ : Nat), Extends h (b02Heap h pJ).1 ∧
      (b02Heap h pJ).2 = scenario_b02_unmatched_accounts (hreadJn h pJ)) ∧
    (∀ (h : List Cell) (pJ : Nat) (pP : Option Nat), Extends h (b03Heap h pJ pP).1 ∧
      (b03Heap h pJ pP).2 =
        scenario_b03_new_accounts (hreadJn h pJ) (pP.map (fun p => hreadTB h p))) ∧
    (∀ (h : List Cell) (pJ t : Nat), Extends h (b04Heap h pJ t).1 ∧
      (b04Heap h pJ t).2 = scenario_b04_seldom_used_accounts (hreadJn h pJ) t) ∧
    (∀ (h : List Cell) (pJ : Nat) (au : Option (List String)), Extends h (b05Heap h pJ au).1 ∧
      (b05Heap h pJ au).2 = scenario_b05_unusual_user (hreadJn h pJ) au) ∧
    (∀ (h : List Cell) (pJ : Nat) (ro : Option (List (String × String))),
      Extends h (b06Heap h pJ ro).1 ∧
      (b06Heap h pJ ro).2 = scenario_b06_inappropriate_user (hreadJn h pJ) ro) ∧
    (∀ (h : List Cell) (pJ : Nat) (fy : Int), Extends h (b07Heap h pJ fy).1 ∧
      (b07Heap h pJ fy).2 = scenario_b07_back_dated_entries (hreadJn h pJ) fy) ∧
    (∀ (h : List Cell) (pJ : Nat), Extends h (b08Heap h pJ).1 ∧
      (b08Heap h pJ).2 = scenario_b08_create_approve_same (hreadJn h pJ)) ∧
    (∀ (h : List Cell) (pJ : Nat), Extends h (b09Heap h pJ).1 ∧
      (b09Heap h pJ).2 = scenario_b09_corresponding_accounts (hreadJn h pJ)) ∧
    (∀ (h : List Cell) (pJ : Nat), pJ < h.length →
      (a02Heap (b08Heap h pJ).1 pJ).2 = (a02Heap h pJ).2) := by
  refine ⟨a01Heap_spec, a02Heap_spec,
    fun h pP pJ pC => ⟨a03Heap_extends h pP pJ pC, a03Heap_result h pP pJ pC⟩,
    b01Heap_spec, b02Heap_spec, b03Heap_spec, b04Heap_spec, b05Heap_spec,
    b06Heap_spec, b07Heap_spec, b08Heap_spec, b09Heap_spec, ?_⟩
  intro h pJ hlt
  rw [(a02Heap_spec (b08Heap h pJ).1 pJ).2, (a02Heap_spec h pJ).2,
    hreadJn_of_extends (b08Heap_spec h pJ).1 hlt]

/-- A heap holding the three caller tables. -/
def heapEx : List Cell := [Cell.tb prevEx, Cell.jn jV1, Cell.tb currEx]

theorem C9_procedures_pure_frame_witness :
    (a03Heap heapEx 0 1 2).1.get? 1 = heapEx.get? 1 ∧
    (a02Heap (b08Heap heapEx 1).1 1).2 = (a02Heap heapEx 1).2 :=
  ⟨(C9_procedures_pure_frame.2.2.1 heapEx 0 1 2).1.2 1 (by decide),
   C9_procedures_pure_frame.2.2.2.2.2.2.2.2.2.2.2.2 heapEx 1 (by decide)⟩

end JET
